import Mathlib

/-!
Verification of the finance-Transformer data-transform app (src/app.py).

The app reads a tabular file, transposes "wide" activity columns into "long"
rows (`transpose_row`), filters the resulting table (the post-filter block of
`main`, lines 124-132), and renders/exports the result.

Modelling conventions of the shallow embedding:
* A cell is a `Scalar`: a string, an exact rational number, or `null`.
  `null` models both Python `None` and float NaN (the values for which
  `pd.isna` holds); the embedding uses exact rationals in place of IEEE
  floats, so float-rounding behaviour (e.g. underflow of tiny literals) is
  idealized away.  `float(value)` / `pd.to_numeric(value)` are both modelled
  by `pyFloat?`, a parser of ordinary decimal/exponent literals with
  optional sign and surrounding whitespace (the Python `inf`/`nan`/underscore
  literal forms are treated as unparseable).
* A row is a `List Scalar`; a table carries its header list separately.
* Python exceptions are modelled as `Except.error`: the body of the
  top-level `try` of `main` is the fallible `cycle`, and the `except` handler is
  `main_body`, which converts any error to a rendered message.
-/

namespace App

/-- A cell value: string, exact number, or the missing sentinel
(models Python `None` / float NaN). -/
inductive Scalar where
  | str (s : String)
  | num (q : Rat)
  | null
deriving DecidableEq, Repr

/-- `pd.isna(value)`: true exactly on the null/NaN sentinel. -/
def isna : Scalar → Bool
  | .null => true
  | _ => false

/-- Strip leading and trailing whitespace from a character list
(models Python `str.strip()` restricted to ASCII whitespace). -/
def stripChars (l : List Char) : List Char :=
  ((l.dropWhile Char.isWhitespace).reverse.dropWhile Char.isWhitespace).reverse

/-- Python `s.strip()`. -/
def py_strip (s : String) : String := ⟨stripChars s.toList⟩

/-- The missing-value test of `transpose_row` (src/app.py line 31):
`pd.isna(value) or (isinstance(value, str) and value.strip() in ['-', ''])`. -/
def isMissing (v : Scalar) : Bool :=
  match v with
  | .null => true
  | .str s => py_strip s = "-" || py_strip s = ""
  | .num _ => false

/-- Digits of a character list read as a natural number. -/
def digitsToNat (l : List Char) : Nat :=
  l.foldl (fun n c => n * 10 + (c.toNat - 48)) 0

/-- Consume an optional leading sign; returns (isNegative, rest). -/
def parseSign : List Char → Bool × List Char
  | '-' :: r => (true, r)
  | '+' :: r => (false, r)
  | l => (false, l)

/-- Parse the mantissa part (`digits`, `digits.digits`, or `.digits`);
returns the digit value, the number of fractional digits, and the
unconsumed suffix. -/
def parseMantissa (l : List Char) : Option ((Nat × Nat) × List Char) :=
  let d1 := l.takeWhile Char.isDigit
  let r1 := l.dropWhile Char.isDigit
  match r1 with
  | '.' :: r2 =>
      let d2 := r2.takeWhile Char.isDigit
      let r3 := r2.dropWhile Char.isDigit
      if d1.isEmpty && d2.isEmpty then none
      else some ((digitsToNat (d1 ++ d2), d2.length), r3)
  | _ => if d1.isEmpty then none else some ((digitsToNat d1, 0), r1)

/-- Parse an exponent body (after the `e`/`E`): optional sign then digits,
consuming the whole remainder. -/
def parseAfterE (l : List Char) : Option Int :=
  let (neg, r) := parseSign l
  let d := r.takeWhile Char.isDigit
  let rest := r.dropWhile Char.isDigit
  if d.isEmpty || !rest.isEmpty then none
  else some (if neg then -(digitsToNat d : Int) else (digitsToNat d : Int))

/-- Parse a float literal from characters: optional surrounding whitespace,
optional sign, mantissa, optional exponent.  The value
`± mantissaDigits * 10^exponent / 10^fracLen` is assembled with `mkRat`. -/
def parseFloatChars (l : List Char) : Option Rat :=
  let l1 := stripChars l
  let (neg, r) := parseSign l1
  match parseMantissa r with
  | none => none
  | some ((n, f), rest) =>
    let e? : Option Int :=
      match rest with
      | [] => some 0
      | 'e' :: r2 => parseAfterE r2
      | 'E' :: r2 => parseAfterE r2
      | _ => none
    e?.map (fun e =>
      let sn : Int := if neg then -(n : Int) else (n : Int)
      if 0 ≤ e then mkRat (sn * ((10 : Nat) ^ e.toNat : Nat)) ((10 : Nat) ^ f)
      else mkRat sn ((10 : Nat) ^ f * (10 : Nat) ^ (-e).toNat))

/-- Python `float(s)` on a string, as an exact rational. -/
def parseFloat? (s : String) : Option Rat := parseFloatChars s.toList

/-- Python `float(value)` on a cell: numbers pass through, strings are
parsed, `None` raises (`TypeError`), i.e. yields `none`. -/
def pyFloat? : Scalar → Option Rat
  | .num q => some q
  | .str s => parseFloat? s
  | .null => none

/-- The fixed (identity) values of a row (src/app.py line 23):
`row[:11] if len(row) >= 11 else row + [None] * (11 - len(row))`. -/
def fixed_of (row : List Scalar) : List Scalar :=
  if 11 ≤ row.length then row.take 11
  else row ++ List.replicate (11 - row.length) Scalar.null

/-- The body of the loop of `transpose_row` (src/app.py lines 29-43) for one
(activity header, value) pair: skip missing markers, skip values that parse
to zero, skip values that fail to parse (`except ... : continue`), otherwise
emit `fixed_values + [activity_header, value]`. -/
def emit_for (fixed_values : List Scalar) (activity_header : String)
    (value : Scalar) : Option (List Scalar) :=
  if isMissing value then none
  else
    match pyFloat? value with
    | none => none
    | some q =>
        if q = 0 then none
        else some (fixed_values ++ [Scalar.str activity_header, value])

/-- `transpose_row(row, headers)` (src/app.py lines 18-45): zip the activity
headers (`headers[11:]`) with the activity values (`row[11:]`) and collect
the emitted rows in order. -/
def transpose_row (row : List Scalar) (headers : List String) :
    List (List Scalar) :=
  ((headers.drop 11).zip (row.drop 11)).filterMap
    (fun p => emit_for (fixed_of row) p.1 p.2)

/-- The accumulation loop of `main` (src/app.py lines 113-117):
`all_transposed_rows.extend(transpose_row(row, headers))` over the input
rows in order. -/
def transpose_table (rows : List (List Scalar)) (headers : List String) :
    List (List Scalar) :=
  rows.foldl (fun acc row => acc ++ transpose_row row headers) []

/-- The `Activity` column of a transposed row (column index 11 of
`headers[:11] + ['Activity', 'Amount']`). -/
def activityOf (r : List Scalar) : Scalar := r.getD 11 Scalar.null

/-- The `Amount` column of a transposed row (column index 12). -/
def amountOf (r : List Scalar) : Scalar := r.getD 12 Scalar.null

/-- Python `str(value)`, as used by `.astype(str)` (only the string case is
exercised on Activity cells; NaN stringifies to `"nan"`). -/
def scalar_str : Scalar → String
  | .str s => s
  | .num q => toString q
  | .null => "nan"

/-- Lower-case a character list. -/
def toLowerChars (l : List Char) : List Char := l.map Char.toLower

/-- `needle` occurs as a contiguous substring of the second list. -/
def containsSub (needle : List Char) : List Char → Bool
  | [] => needle.isEmpty
  | c :: rest => needle.isPrefixOf (c :: rest) || containsSub needle rest

/-- The test of src/app.py line 127:
`Activity.astype(str).str.contains('Balance', case=False, na=False)`. -/
def activity_has_balance (v : Scalar) : Bool :=
  containsSub (toLowerChars "Balance".toList) (toLowerChars (scalar_str v).toList)

/-- `pd.to_numeric(value, errors='coerce')` (src/app.py line 130): parseable
values become numbers, everything else becomes NaN (modelled `null`). -/
def to_numeric (v : Scalar) : Scalar :=
  match pyFloat? v with
  | some q => .num q
  | none => .null

/-- Replace the Amount column of a row by its numeric coercion
(the column assignment of src/app.py line 130, per row). -/
def coerce_amount (r : List Scalar) : List Scalar :=
  r.take 12 ++ [to_numeric (amountOf r)]

/-- The post-filter block of `main` (src/app.py lines 124-132), applied to
the transposed table, in source order:
1. keep rows with `Activity != 'Balance'`;
2. keep rows whose Activity, as a string, does not contain "Balance"
   case-insensitively;
3. coerce Amount to numeric (`errors='coerce'`);
4. keep rows with `Amount != 0`;
5. drop rows whose Amount is NaN (`dropna(subset=['Amount'])`). -/
def applyPostFilters (rows : List (List Scalar)) : List (List Scalar) :=
  let s1 := rows.filter (fun r => decide (activityOf r ≠ Scalar.str "Balance"))
  let s2 := s1.filter (fun r => !activity_has_balance (activityOf r))
  let s3 := s2.map coerce_amount
  let s4 := s3.filter (fun r => decide (amountOf r ≠ Scalar.num 0))
  s4.filter (fun r => !isna (amountOf r))

/-- The accepted extensions of the file chooser (src/app.py line 73):
`st.file_uploader("Choose a file", type=['csv', 'txt'])`. -/
def file_uploader_types : List String := ["csv", "txt"]

/-- Python `name.endswith(suffix)`. -/
def py_endswith (s suffix : String) : Bool :=
  suffix.toList.isSuffixOf s.toList

/-- The extension test of src/app.py line 78:
`uploaded_file.name.endswith(('.xlsx', '.xls'))`. -/
def excel_extension (name : String) : Bool :=
  py_endswith name ".xlsx" || py_endswith name ".xls"

/-- A parsed table: header list plus rows. -/
structure PTable where
  headers : List String
  rows : List (List Scalar)
deriving DecidableEq, Repr

/-- An uploaded file together with the outcomes of the external library
calls made on it: UTF-8 decoding of its bytes (line 91), `pd.read_excel`
(line 85), and `pd.read_csv` with a given delimiter (line 97).  A library
failure is an `Except.error` (a raised exception). -/
structure UploadedFile where
  name : String
  decoded : Except String String
  excelTable : Except String PTable
  csvTable : String → Except String PTable

/-- The delimiter attempt order of src/app.py line 94. -/
def delimiters : List String := ["\t", ",", ";"]

/-- The for/else delimiter loop (src/app.py lines 94-104): first successful
parse wins, exhaustion falls through to the else branch. -/
def first_delim_success (f : String → Except String PTable) :
    List String → Option PTable
  | [] => none
  | d :: ds =>
    match f d with
    | .ok t => some t
    | .error _ => first_delim_success f ds

/-- What a transform-and-render cycle produces for the user. -/
inductive Render where
  | errorMsg (s : String)
  | table (headers : List String) (rows : List (List Scalar))
  | warnNoData
deriving DecidableEq, Repr

/-- The output header list (src/app.py line 121):
`headers[:11] + ['Activity', 'Amount']`. -/
def new_headers (headers : List String) : List String :=
  headers.take 11 ++ ["Activity", "Amount"]

/-- Transform a parsed table and render the result (src/app.py lines
109-177): transpose every row, and if anything was produced apply the
post filters and show the table, else warn that there is no data. -/
def render_table (t : PTable) : Render :=
  let all := transpose_table t.rows t.headers
  if all.isEmpty then .warnNoData
  else .table (new_headers t.headers) (applyPostFilters all)

/-- The body of the top-level `try` of `main` (src/app.py lines 76-178).
An `Except.error` is an exception escaping the body to the top-level
handler: the only uncaught raise site in the model is the UTF-8 decode of
line 91, which sits outside the inner try blocks.  Handled failures
(missing Excel library, unreadable Excel file, no delimiter working)
return rendered error messages, not exceptions. -/
def cycle (openpyxl_available xlsxwriter_available : Bool)
    (u : UploadedFile) : Except String Render :=
  if excel_extension u.name then
    if !openpyxl_available && !xlsxwriter_available then
      .ok (.errorMsg "Cannot read Excel files - no Excel library installed")
    else
      match u.excelTable with
      | .error e => .ok (.errorMsg ("Cannot read Excel file: " ++ e))
      | .ok t => .ok (render_table t)
  else
    match u.decoded with
    | .error e => .error e
    | .ok _ =>
      match first_delim_success u.csvTable delimiters with
      | none => .ok (.errorMsg "Could not read the file. Please check the format.")
      | some t => .ok (render_table t)

/-- One full transform-and-render cycle with the top-level exception
handler of src/app.py lines 179-180: every error of the body becomes a
user-facing message. -/
def main_body (openpyxl_available xlsxwriter_available : Bool)
    (u : UploadedFile) : Render :=
  match cycle openpyxl_available xlsxwriter_available u with
  | .ok r => r
  | .error e => .errorMsg ("Error processing file: " ++ e)

/-- Processing a sequence of uploads: each rerun of the script handles its
upload independently (no state is carried between cycles in src/app.py:
module level only sets the constant library-availability flags). -/
def process_all (openpyxl_available xlsxwriter_available : Bool)
    (us : List UploadedFile) : List Render :=
  us.map (main_body openpyxl_available xlsxwriter_available)

/-- A concrete upload that parses on the first delimiter attempt into a
table with 11 identity columns and one activity column. -/
def upload_ok : UploadedFile :=
  { name := "b.csv"
    decoded := .ok "x\ty"
    excelTable := .error "no excel"
    csvTable := fun _ =>
      .ok ⟨List.replicate 11 "h" ++ ["Rent"],
        [List.replicate 11 Scalar.null ++ [Scalar.str "1"]]⟩ }

/-- A concrete upload whose byte decoding raises (the uncaught failure
site of the cycle body). -/
def upload_bad : UploadedFile :=
  { name := "a.csv"
    decoded := .error "invalid utf-8"
    excelTable := .error "no excel"
    csvTable := fun _ => .error "cannot parse" }

/-! ### Helper lemmas about the transform -/

theorem emit_for_none_of_missing (fx : List Scalar) (h : String) {v : Scalar}
    (hv : isMissing v = true) : emit_for fx h v = none := by
  unfold emit_for
  rw [hv]
  rfl

theorem emit_for_none_of_parse_none (fx : List Scalar) (h : String) {v : Scalar}
    (hv : pyFloat? v = none) : emit_for fx h v = none := by
  unfold emit_for
  rw [hv]
  split <;> rfl

theorem emit_for_none_of_zero (fx : List Scalar) (h : String) {v : Scalar}
    (hv : pyFloat? v = some 0) : emit_for fx h v = none := by
  unfold emit_for
  rw [hv]
  split <;> simp

theorem emit_for_eq_some {fx : List Scalar} {h : String} {v : Scalar}
    {r : List Scalar} (he : emit_for fx h v = some r) :
    isMissing v = false ∧ (∃ q, pyFloat? v = some q ∧ q ≠ 0) ∧
      r = fx ++ [Scalar.str h, v] := by
  unfold emit_for at he
  split at he
  · exact Option.noConfusion he
  · rename_i hm
    split at he
    · exact Option.noConfusion he
    · rename_i q hq
      split at he
      · exact Option.noConfusion he
      · rename_i hqz
        exact ⟨by simpa using hm, ⟨q, hq, hqz⟩, (Option.some_inj.1 he).symm⟩

theorem fixed_of_length (row : List Scalar) : (fixed_of row).length = 11 := by
  unfold fixed_of
  split
  · rename_i hle
    simp [List.length_take]
    omega
  · rename_i hlt
    simp only [List.length_append, List.length_replicate]
    omega

theorem fixed_of_eq_take_pad (row : List Scalar) :
    fixed_of row = row.take 11 ++ List.replicate (11 - row.length) Scalar.null := by
  unfold fixed_of
  split
  · rename_i hle
    have h0 : 11 - row.length = 0 := by omega
    simp [h0]
  · rename_i hlt
    rw [List.take_of_length_le (by omega)]

theorem mem_transpose_row {row : List Scalar} {headers : List String}
    {r : List Scalar} :
    r ∈ transpose_row row headers ↔
      ∃ p ∈ (headers.drop 11).zip (row.drop 11),
        emit_for (fixed_of row) p.1 p.2 = some r := by
  unfold transpose_row
  exact List.mem_filterMap

theorem transpose_row_shape {row : List Scalar} {headers : List String}
    {r : List Scalar} (hr : r ∈ transpose_row row headers) :
    ∃ h v, isMissing v = false ∧ (∃ q, pyFloat? v = some q ∧ q ≠ 0) ∧
      r = fixed_of row ++ [Scalar.str h, v] := by
  obtain ⟨⟨h, v⟩, _, he⟩ := mem_transpose_row.1 hr
  obtain ⟨hm, hq, hshape⟩ := emit_for_eq_some he
  exact ⟨h, v, hm, hq, hshape⟩

theorem fixed_of_append_of_le {row1 rest : List Scalar} (h11 : 11 ≤ row1.length) :
    fixed_of (row1 ++ rest) = row1.take 11 := by
  unfold fixed_of
  rw [if_pos (by simp; omega), List.take_append_of_le_length h11]

/-- Deleting an activity column whose pair emits nothing leaves the output
of `transpose_row` unchanged. -/
theorem transpose_row_delete {row1 row2 : List Scalar} {hdr1 hdr2 : List String}
    {h : String} {v : Scalar}
    (hlen : hdr1.length = row1.length) (h11 : 11 ≤ row1.length)
    (hnone : ∀ fx, emit_for fx h v = none) :
    transpose_row (row1 ++ v :: row2) (hdr1 ++ h :: hdr2) =
      transpose_row (row1 ++ row2) (hdr1 ++ hdr2) := by
  have h11h : 11 ≤ hdr1.length := by omega
  have hfix : fixed_of (row1 ++ v :: row2) = fixed_of (row1 ++ row2) := by
    rw [fixed_of_append_of_le h11, fixed_of_append_of_le h11]
  unfold transpose_row
  rw [hfix,
      List.drop_append_of_le_length h11, List.drop_append_of_le_length h11,
      List.drop_append_of_le_length h11h, List.drop_append_of_le_length h11h,
      List.zip_append (by simp [hlen]), List.zip_append (by simp [hlen]),
      List.filterMap_append, List.filterMap_append]
  simp [hnone]

theorem foldl_append_acc {α β : Type} (g : α → List β) (rows : List α) :
    ∀ init, rows.foldl (fun acc row => acc ++ g row) init =
      init ++ rows.flatMap g := by
  induction rows with
  | nil => intro init; simp
  | cons r rs ih => intro init; simp [ih, List.append_assoc]

theorem transpose_table_eq_flatMap (rows : List (List Scalar))
    (headers : List String) :
    transpose_table rows headers =
      rows.flatMap (fun row => transpose_row row headers) := by
  unfold transpose_table
  simpa using foldl_append_acc (fun row => transpose_row row headers) rows []

theorem of_mem_transpose_table {rows : List (List Scalar)}
    {headers : List String} {r : List Scalar}
    (h : r ∈ transpose_table rows headers) :
    ∃ row ∈ rows, r ∈ transpose_row row headers := by
  rw [transpose_table_eq_flatMap] at h
  simpa using List.mem_flatMap.1 h

theorem activityOf_fixed_append {fx : List Scalar} {a v : Scalar}
    (hfx : fx.length = 11) : activityOf (fx ++ [a, v]) = a := by
  unfold activityOf
  rw [List.getD_eq_getElem?_getD, List.getElem?_append_right (by omega)]
  simp [hfx]

theorem amountOf_fixed_append {fx : List Scalar} {a v : Scalar}
    (hfx : fx.length = 11) : amountOf (fx ++ [a, v]) = v := by
  unfold amountOf
  rw [List.getD_eq_getElem?_getD, List.getElem?_append_right (by omega)]
  simp [hfx]

theorem coerce_amount_shape {fx : List Scalar} {a v : Scalar}
    (hfx : fx.length = 11) :
    coerce_amount (fx ++ [a, v]) = fx ++ [a, to_numeric v] := by
  unfold coerce_amount
  rw [amountOf_fixed_append hfx]
  have h12 : fx.length + 1 = 12 := by omega
  have : (fx ++ [a, v]).take 12 = fx ++ [a] := by
    rw [← h12, List.take_append]
    rfl
  rw [this]
  simp

theorem of_mem_applyPostFilters {rows : List (List Scalar)} {r : List Scalar}
    (hr : r ∈ applyPostFilters rows) :
    ∃ r', r' ∈ rows ∧ r = coerce_amount r' ∧
      activityOf r' ≠ Scalar.str "Balance" ∧
      activity_has_balance (activityOf r') = false ∧
      amountOf r ≠ Scalar.num 0 ∧ isna (amountOf r) = false := by
  unfold applyPostFilters at hr
  obtain ⟨hr4, hna⟩ := List.mem_filter.1 hr
  obtain ⟨hr3, hz⟩ := List.mem_filter.1 hr4
  obtain ⟨r', hr2, hmap⟩ := List.mem_map.1 hr3
  obtain ⟨hr1, hbal⟩ := List.mem_filter.1 hr2
  obtain ⟨hr0, hBal⟩ := List.mem_filter.1 hr1
  exact ⟨r', hr0, hmap.symm, of_decide_eq_true hBal, by simpa using hbal,
    of_decide_eq_true hz, by simpa using hna⟩

theorem filterMap_map_sublist {α β γ : Type} (f : α → Option β) (g : β → γ)
    (t : α → γ) (hfg : ∀ a b, f a = some b → g b = t a) :
    ∀ l : List α, ((l.filterMap f).map g).Sublist (l.map t) := by
  intro l
  induction l with
  | nil => simp
  | cons a l ih =>
    rw [List.filterMap_cons]
    cases hf : f a with
    | none => rw [List.map_cons]; exact ih.cons _
    | some b =>
      rw [List.map_cons, List.map_cons, hfg a b hf]
      exact ih.cons₂ _

theorem map_fst_zip_sublist {α β : Type} :
    ∀ (l₁ : List α) (l₂ : List β), ((l₁.zip l₂).map Prod.fst).Sublist l₁
  | [], _ => by simp
  | _ :: _, [] => by simp
  | a :: l₁, b :: l₂ => by
    rw [List.zip_cons_cons, List.map_cons]
    exact (map_fst_zip_sublist l₁ l₂).cons₂ a

theorem map_activity_sublist {fx : List Scalar} (hfx : fx.length = 11)
    (hs : List String) (vs : List Scalar) :
    (((hs.zip vs).filterMap (fun p => emit_for fx p.1 p.2)).map activityOf).Sublist
      (hs.map Scalar.str) := by
  have h1 := filterMap_map_sublist (fun p => emit_for fx p.1 p.2) activityOf
    (fun p => Scalar.str p.1)
    (fun p r he => by
      obtain ⟨_, _, hshape⟩ := emit_for_eq_some he
      rw [hshape, activityOf_fixed_append hfx])
    (hs.zip vs)
  have h2 : (hs.zip vs).map (fun p => Scalar.str p.1) =
      ((hs.zip vs).map Prod.fst).map Scalar.str := by
    rw [List.map_map]; rfl
  have h3 := (map_fst_zip_sublist hs vs).map Scalar.str
  exact h1.trans (h2 ▸ h3)

/-! ### Claims -/

/-- C1 (counterexample): the string "abc" is not a missing marker and does
not parse as a float, yet `transpose_row` emits no row at all for its
column — refuting the claim that a non-numeric value is kept at the
transpose stage. -/
theorem C1_counterexample :
    isMissing (Scalar.str "abc") = false ∧
    pyFloat? (Scalar.str "abc") = none ∧
    transpose_row (List.replicate 11 Scalar.null ++ [Scalar.str "abc"])
      (List.replicate 11 "h" ++ ["Meals"]) = [] := by
  refine ⟨by decide, by decide, by decide⟩

/-- C1 (amended): in `transpose_row`, a value that is not a missing marker
and cannot be parsed as a floating-point number is skipped (the
`except (ValueError, TypeError): continue` branch): deleting such an
activity column leaves the output unchanged, i.e. no output row is emitted
for it. -/
theorem C1_nonnumeric_skipped {row1 row2 : List Scalar}
    {hdr1 hdr2 : List String} {h : String} {v : Scalar}
    (hlen : hdr1.length = row1.length) (h11 : 11 ≤ row1.length)
    (_hmiss : isMissing v = false) (hparse : pyFloat? v = none) :
    transpose_row (row1 ++ v :: row2) (hdr1 ++ h :: hdr2) =
      transpose_row (row1 ++ row2) (hdr1 ++ hdr2) :=
  transpose_row_delete hlen h11 (fun fx => emit_for_none_of_parse_none fx h hparse)

/-- C1 (witness): the amended theorem applied to the non-numeric value
"abc" in a concrete 13-column row. -/
theorem C1_witness :
    (List.replicate 11 "h").length = (List.replicate 11 Scalar.null).length ∧
    11 ≤ (List.replicate 11 Scalar.null).length ∧
    isMissing (Scalar.str "abc") = false ∧
    pyFloat? (Scalar.str "abc") = none ∧
    transpose_row
        (List.replicate 11 Scalar.null ++ Scalar.str "abc" :: [Scalar.str "7"])
        (List.replicate 11 "h" ++ "A" :: ["B"]) =
      transpose_row (List.replicate 11 Scalar.null ++ [Scalar.str "7"])
        (List.replicate 11 "h" ++ ["B"]) :=
  ⟨by decide, by decide, by decide, by decide,
    C1_nonnumeric_skipped (by decide) (by decide) (by decide) (by decide)⟩

/-- C3: every row emitted by `transpose_row` has 13 entries and begins with
exactly the first 11 values of the input row, in order, padded with the
missing marker (`None`) to length 11 when the row is shorter. -/
theorem C3_fixed_values_preserved {row : List Scalar} {headers : List String}
    {r : List Scalar} (hr : r ∈ transpose_row row headers) :
    r.take 11 = row.take 11 ++ List.replicate (11 - row.length) Scalar.null ∧
      r.length = 13 := by
  obtain ⟨h, v, _, _, rfl⟩ := transpose_row_shape hr
  constructor
  · rw [← fixed_of_eq_take_pad]
    conv_lhs => rw [← fixed_of_length row]
    exact List.take_left _ _
  · simp [fixed_of_length]

/-- C3 (witness): the theorem applied to a concrete emitted row of a
concrete short (padded) input row. -/
theorem C3_witness :
    ([Scalar.str "j", Scalar.str "k"] ++
        List.replicate 9 Scalar.null ++ [Scalar.str "Rent", Scalar.str "5"]) ∈
      transpose_row
        ([Scalar.str "j", Scalar.str "k"] ++ List.replicate 9 Scalar.null ++
          [Scalar.str "5"])
        (List.replicate 11 "h" ++ ["Rent"]) ∧
    (([Scalar.str "j", Scalar.str "k"] ++
        List.replicate 9 Scalar.null ++ [Scalar.str "Rent", Scalar.str "5"]).take 11 =
      ([Scalar.str "j", Scalar.str "k"] ++ List.replicate 9 Scalar.null ++
          [Scalar.str "5"]).take 11 ++
        List.replicate
          (11 - ([Scalar.str "j", Scalar.str "k"] ++ List.replicate 9 Scalar.null ++
            [Scalar.str "5"]).length) Scalar.null ∧
      ([Scalar.str "j", Scalar.str "k"] ++
        List.replicate 9 Scalar.null ++ [Scalar.str "Rent", Scalar.str "5"]).length = 13) :=
  ⟨by decide,
    @C3_fixed_values_preserved
      ([Scalar.str "j", Scalar.str "k"] ++ List.replicate 9 Scalar.null ++
        [Scalar.str "5"])
      (List.replicate 11 "h" ++ ["Rent"])
      ([Scalar.str "j", Scalar.str "k"] ++ List.replicate 9 Scalar.null ++
        [Scalar.str "Rent", Scalar.str "5"])
      (by decide)⟩

/-- C4: an activity value that is a missing marker — the null/NaN
sentinel, the empty string, a whitespace-only string, or the literal "-" —
produces no output row for its column: deleting that column leaves the
output of `transpose_row` unchanged. -/
theorem C4_missing_marker_skipped {row1 row2 : List Scalar}
    {hdr1 hdr2 : List String} {h : String} {v : Scalar}
    (hlen : hdr1.length = row1.length) (h11 : 11 ≤ row1.length)
    (hmiss : v = Scalar.null ∨ v = Scalar.str "" ∨
      (∃ s, v = Scalar.str s ∧ ∀ c ∈ s.toList, c.isWhitespace) ∨
      v = Scalar.str "-") :
    transpose_row (row1 ++ v :: row2) (hdr1 ++ h :: hdr2) =
      transpose_row (row1 ++ row2) (hdr1 ++ hdr2) := by
  have hm : isMissing v = true := by
    rcases hmiss with rfl | rfl | ⟨s, rfl, hws⟩ | rfl
    · rfl
    · decide
    · have h1 : s.toList.dropWhile Char.isWhitespace = [] :=
        List.dropWhile_eq_nil_iff.2 hws
      have h2 : py_strip s = "" := by
        unfold py_strip stripChars
        rw [h1]
        rfl
      simp [isMissing, h2]
    · decide
  exact transpose_row_delete hlen h11 (fun fx => emit_for_none_of_missing fx h hm)

/-- C4 (witness): the theorem applied to the literal "-" marker in a
concrete row. -/
theorem C4_witness :
    transpose_row
        (List.replicate 11 Scalar.null ++ Scalar.str "-" :: [Scalar.str "3"])
        (List.replicate 11 "h" ++ "Rent" :: ["Util"]) =
      transpose_row (List.replicate 11 Scalar.null ++ [Scalar.str "3"])
        (List.replicate 11 "h" ++ ["Util"]) :=
  C4_missing_marker_skipped (by decide) (by decide)
    (Or.inr (Or.inr (Or.inr rfl)))

/-- C10: the missing-marker test strips whitespace before comparing, so any
string whose stripped form is "-" (e.g. "-" surrounded by whitespace) makes
`transpose_row` emit nothing for that column: deleting the column leaves
the output unchanged. -/
theorem C10_strip_before_compare {row1 row2 : List Scalar}
    {hdr1 hdr2 : List String} {h : String} {s : String}
    (hlen : hdr1.length = row1.length) (h11 : 11 ≤ row1.length)
    (hstrip : py_strip s = "-") :
    transpose_row (row1 ++ Scalar.str s :: row2) (hdr1 ++ h :: hdr2) =
      transpose_row (row1 ++ row2) (hdr1 ++ hdr2) := by
  have hm : isMissing (Scalar.str s) = true := by
    simp [isMissing, hstrip]
  exact transpose_row_delete hlen h11 (fun fx => emit_for_none_of_missing fx h hm)

/-- C10 (witness): the theorem applied to the value " - " (a dash
surrounded by whitespace, which is neither empty, whitespace-only, nor the
literal "-"). -/
theorem C10_witness :
    py_strip " - " = "-" ∧
    Scalar.str " - " ≠ Scalar.str "" ∧ Scalar.str " - " ≠ Scalar.str "-" ∧
    transpose_row
        (List.replicate 11 Scalar.null ++ Scalar.str " - " :: [Scalar.str "3"])
        (List.replicate 11 "h" ++ "Rent" :: ["Util"]) =
      transpose_row (List.replicate 11 Scalar.null ++ [Scalar.str "3"])
        (List.replicate 11 "h" ++ ["Util"]) :=
  ⟨by decide, by decide, by decide,
    C10_strip_before_compare (by decide) (by decide) (by decide)⟩

/-- C2 (counterexample): the accepted types of the file chooser (src/app.py
line 73) do not include the spreadsheet extensions, refuting the claim
that the chooser accepts spreadsheet files. -/
theorem C2_counterexample :
    file_uploader_types.contains "xlsx" = false ∧
    file_uploader_types.contains "xls" = false := by
  decide

/-- C2 (amended): the interactive file chooser accepts only the
delimited-text kinds csv and txt; spreadsheet kinds are not among its
accepted input types (the Excel-reading branch of `main` is keyed on the
file extension but spreadsheet files cannot be chosen). -/
theorem C2_uploader_accepts_only_text :
    file_uploader_types.contains "csv" = true ∧
    file_uploader_types.contains "txt" = true ∧
    file_uploader_types.contains "xlsx" = false ∧
    file_uploader_types.contains "xls" = false ∧
    excel_extension "data.csv" = false ∧ excel_extension "data.txt" = false := by
  decide

/-- C5: every row of the table produced by `applyPostFilters` from a
transposed table has an Activity label that is neither exactly "Balance"
nor contains "balance" case-insensitively as a substring. -/
theorem C5_no_balance_survives {inputRows : List (List Scalar)}
    {headers : List String} {r : List Scalar}
    (hr : r ∈ applyPostFilters (transpose_table inputRows headers)) :
    activityOf r ≠ Scalar.str "Balance" ∧
      activity_has_balance (activityOf r) = false := by
  obtain ⟨r', hr'mem, hcoerce, hBal, hbal, _, _⟩ := of_mem_applyPostFilters hr
  obtain ⟨row, _, hrow⟩ := of_mem_transpose_table hr'mem
  obtain ⟨h, v, _, _, hshape⟩ := transpose_row_shape hrow
  subst hshape
  rw [hcoerce, coerce_amount_shape (fixed_of_length row),
    activityOf_fixed_append (fixed_of_length row)]
  rw [activityOf_fixed_append (fixed_of_length row)] at hBal hbal
  exact ⟨hBal, hbal⟩

/-- C5 (witness): the theorem applied to the single surviving row of a
concrete run whose input has one non-balance activity column. -/
theorem C5_witness :
    (List.replicate 11 Scalar.null ++ [Scalar.str "Food", Scalar.num 5]) ∈
      applyPostFilters
        (transpose_table
          [List.replicate 11 Scalar.null ++ [Scalar.str "5", Scalar.str "100"]]
          (List.replicate 11 "h" ++ ["Food", "Opening Balance"])) ∧
    (activityOf (List.replicate 11 Scalar.null ++
        [Scalar.str "Food", Scalar.num 5]) ≠ Scalar.str "Balance" ∧
      activity_has_balance (activityOf (List.replicate 11 Scalar.null ++
        [Scalar.str "Food", Scalar.num 5])) = false) :=
  ⟨by decide,
    @C5_no_balance_survives
      [List.replicate 11 Scalar.null ++ [Scalar.str "5", Scalar.str "100"]]
      (List.replicate 11 "h" ++ ["Food", "Opening Balance"])
      (List.replicate 11 Scalar.null ++ [Scalar.str "Food", Scalar.num 5])
      (by decide)⟩

/-- C6: an activity value whose numeric interpretation is exactly 0 is
dropped already by `transpose_row` (no row is emitted for its column), and
every row surviving `applyPostFilters` has a coerced Amount that is
neither 0 nor NaN. -/
theorem C6_zero_amount_never_survives :
    (∀ (fx : List Scalar) (h : String) (v : Scalar),
      pyFloat? v = some 0 → emit_for fx h v = none) ∧
    ∀ (rows : List (List Scalar)) (r : List Scalar),
      r ∈ applyPostFilters rows →
        amountOf r ≠ Scalar.num 0 ∧ isna (amountOf r) = false := by
  constructor
  · exact fun fx h v hv => emit_for_none_of_zero fx h hv
  · intro rows r hr
    obtain ⟨_, _, _, _, _, hz, hna⟩ := of_mem_applyPostFilters hr
    exact ⟨hz, hna⟩

/-- C6 (witness): the theorem applied to the zero value "0" at the
transpose stage and to the surviving row of a concrete post-filter run. -/
theorem C6_witness :
    pyFloat? (Scalar.str "0") = some 0 ∧
    emit_for [] "Rent" (Scalar.str "0") = none ∧
    (List.replicate 11 Scalar.null ++ [Scalar.str "Util", Scalar.num 7]) ∈
      applyPostFilters
        [List.replicate 11 Scalar.null ++ [Scalar.str "Util", Scalar.str "7"]] ∧
    (amountOf (List.replicate 11 Scalar.null ++
        [Scalar.str "Util", Scalar.num 7]) ≠ Scalar.num 0 ∧
      isna (amountOf (List.replicate 11 Scalar.null ++
        [Scalar.str "Util", Scalar.num 7])) = false) :=
  ⟨by decide,
    C6_zero_amount_never_survives.1 [] "Rent" (Scalar.str "0") (by decide),
    by decide,
    C6_zero_amount_never_survives.2
      [List.replicate 11 Scalar.null ++ [Scalar.str "Util", Scalar.str "7"]]
      (List.replicate 11 Scalar.null ++ [Scalar.str "Util", Scalar.num 7])
      (by decide)⟩

/-- C7: the transposed table is exactly the input-row-order concatenation
of the per-row outputs (the accumulation loop equals `flatMap`, and splits
over append), and within one input row the emitted rows carry Activity
labels in the order of the activity columns of the header list (their
label sequence is a sublist of `headers[11:]`): no reordering or sorting
occurs. -/
theorem C7_order_preserved (rows : List (List Scalar)) (headers : List String) :
    transpose_table rows headers =
        rows.flatMap (fun row => transpose_row row headers) ∧
    (∀ rows1 rows2 : List (List Scalar),
      transpose_table (rows1 ++ rows2) headers =
        transpose_table rows1 headers ++ transpose_table rows2 headers) ∧
    ∀ row : List Scalar,
      ((transpose_row row headers).map activityOf).Sublist
        ((headers.drop 11).map Scalar.str) := by
  refine ⟨transpose_table_eq_flatMap rows headers, ?_, ?_⟩
  · intro rows1 rows2
    rw [transpose_table_eq_flatMap, transpose_table_eq_flatMap,
      transpose_table_eq_flatMap, List.flatMap_append]
  · intro row
    unfold transpose_row
    exact map_activity_sublist (fixed_of_length row) (headers.drop 11)
      (row.drop 11)

/-- C8: every failure of the transform-and-render cycle body is converted
by the top-level handler into a user-facing message (no exception leaves
`main_body`), successful cycles render their result unchanged, and
processing a sequence of uploads is element-wise independent: the outcome
for an upload does not depend on earlier uploads. -/
theorem C8_top_level_error_handling (op xw : Bool) (us : List UploadedFile)
    (u : UploadedFile) :
    process_all op xw (us ++ [u]) =
        process_all op xw us ++ [main_body op xw u] ∧
    (∀ e, cycle op xw u = .error e →
      main_body op xw u = .errorMsg ("Error processing file: " ++ e)) ∧
    (∀ r, cycle op xw u = .ok r → main_body op xw u = r) := by
  refine ⟨by simp [process_all], ?_, ?_⟩
  · intro e he
    unfold main_body
    rw [he]
  · intro r hrr
    unfold main_body
    rw [hrr]

/-- C8 (witness): the theorem applied to a failing upload processed after
a successful one: the failure becomes a message, and the successful
outcome of the successful upload is unchanged by its position in the sequence. -/
theorem C8_witness :
    process_all true false ([upload_ok] ++ [upload_bad]) =
        process_all true false [upload_ok] ++ [main_body true false upload_bad] ∧
    main_body true false upload_bad =
      Render.errorMsg ("Error processing file: " ++ "invalid utf-8") ∧
    main_body true false upload_ok =
      Render.table (List.replicate 11 "h" ++ ["Activity", "Amount"])
        [List.replicate 11 Scalar.null ++ [Scalar.str "Rent", Scalar.num 1]] :=
  ⟨(C8_top_level_error_handling true false [upload_ok] upload_bad).1,
    (C8_top_level_error_handling true false [upload_ok] upload_bad).2.1
      "invalid utf-8" (by rfl),
    (C8_top_level_error_handling true false [] upload_ok).2.2
      (Render.table (List.replicate 11 "h" ++ ["Activity", "Amount"])
        [List.replicate 11 Scalar.null ++ [Scalar.str "Rent", Scalar.num 1]])
      (by rfl)⟩

/-- C9: every row emitted by `transpose_row` carries an Amount that parses
as a floating-point number with a non-zero value, and a value that is
neither a missing marker nor parseable emits no row at the transpose
stage. -/
theorem C9_emitted_amount_parses_nonzero :
    (∀ (row : List Scalar) (headers : List String) (r : List Scalar),
      r ∈ transpose_row row headers →
        ∃ q, pyFloat? (amountOf r) = some q ∧ q ≠ 0) ∧
    ∀ (fx : List Scalar) (h : String) (v : Scalar),
      isMissing v = false → pyFloat? v = none → emit_for fx h v = none := by
  constructor
  · intro row headers r hr
    obtain ⟨h, v, _, ⟨q, hq, hqz⟩, hshape⟩ := transpose_row_shape hr
    subst hshape
    rw [amountOf_fixed_append (fixed_of_length row)]
    exact ⟨q, hq, hqz⟩
  · intro fx h v _ hparse
    exact emit_for_none_of_parse_none fx h hparse

/-- C9 (witness): the theorem applied to a concrete emitted row and to the
non-parseable value "n/a". -/
theorem C9_witness :
    (List.replicate 11 Scalar.null ++ [Scalar.str "Rent", Scalar.str "2.5"]) ∈
      transpose_row (List.replicate 11 Scalar.null ++ [Scalar.str "2.5"])
        (List.replicate 11 "h" ++ ["Rent"]) ∧
    (∃ q, pyFloat? (amountOf (List.replicate 11 Scalar.null ++
        [Scalar.str "Rent", Scalar.str "2.5"])) = some q ∧ q ≠ 0) ∧
    isMissing (Scalar.str "n/a") = false ∧
    pyFloat? (Scalar.str "n/a") = none ∧
    emit_for [] "Rent" (Scalar.str "n/a") = none :=
  ⟨by decide,
    C9_emitted_amount_parses_nonzero.1
      (List.replicate 11 Scalar.null ++ [Scalar.str "2.5"])
      (List.replicate 11 "h" ++ ["Rent"])
      (List.replicate 11 Scalar.null ++ [Scalar.str "Rent", Scalar.str "2.5"])
      (by decide),
    by decide, by decide,
    C9_emitted_amount_parses_nonzero.2 [] "Rent" (Scalar.str "n/a")
      (by decide) (by decide)⟩

end App
